import Mathlib

/- Shallow embedding of the ownership-verification and transaction-assembly
   core of the sol-million-pixel-wall server (src/Api.ts, src/Utils.ts,
   src/Constants.ts).  Public keys and base58 strings are modelled as Lean
   Strings (a PublicKey is identified with its canonical base58 rendering,
   so toBase58 and toString are the identity).  External I/O (the indexer,
   the ledger RPC and the relational store) is passed in explicitly as
   values describing the responses the running code would observe. -/

deriving instance DecidableEq for Except

/-- Constant from @solana/web3.js used by src/Constants.ts. -/
def LAMPORTS_PER_SOL : Nat := 1000000000

/-- Constant JITO_FEE from src/Constants.ts. -/
def JITO_FEE : Nat := 30000

/-- Constant PRICE_PER_BRICK = 0.25 * LAMPORTS_PER_SOL from src/Constants.ts. -/
def PRICE_PER_BRICK : Nat := 250000000

/-- Constant PRICE_PER_BRICK_EDIT = 0.1 * LAMPORTS_PER_SOL from src/Constants.ts. -/
def PRICE_PER_BRICK_EDIT : Nat := 100000000

/-- Constant FUNDS_DESTINATION from src/Constants.ts. -/
def FUNDS_DESTINATION : String := "9hLBcTppq5DUziXTnuUtorbzKSDzM8cFz3FSvUgD8Nsf"

/-- Constant JITO_TIP_ACCOUNTS from src/Constants.ts. -/
def JITO_TIP_ACCOUNTS : List String := [
  "96gYZGLnJYVFmbjzopPSU6QiEV5fGqZNyN9nmNhvrZU5",
  "HFqU5x63VTqvQss8hp11i4wVV8bD44PvwucfZ2bU7gRe",
  "Cw8CFyM9FkoMi7K7Crf6HNQqf4uEMzpKw6QNghXLvLkY",
  "ADaUMid9yfUytqMBgopwjb2DTLSokTSzL1zt6iGPaS49",
  "DfXygSm4jCyNCybVYYK6DwvWqjKee8pbDmJGcLWNDXjh",
  "ADuUkR4vqLUMWXxW9gh6D6L8pMSawimctcNZ5pGwDcEt",
  "DttWaMuVvTiduZRnguLF7jNxTgiMBZ1hyAumKUiL2KRL",
  "3AVi9Tg9Uo68tJfuvoKvqKNWKkC5wPdSSdeBnizKZ6jT"]

/-- JavaScript Array.prototype.slice(0, e): a negative end index counts back
from the end of the array (clamped at 0), a non-negative end index is clamped
at the length.  Used by transferNFTInstruction (src/Api.ts line 1006). -/
def jsSliceTo {α : Type} (l : List α) (e : Int) : List α :=
  l.take (if e < 0 then ((l.length : Int) + e).toNat else e.toNat)

/-- The getAssetProof response consumed by transferNFTInstruction
(src/Api.ts lines 985-1006): the proof node list, the tree reference and the
base58 root.  A missing response (null, or a response without a proof field)
is modelled as Option.none at the use site. -/
structure AssetProof where
  proof : List String
  tree_id : String
  root : String
deriving DecidableEq

/-- Ownership block of the getAsset response (rpcAsset.ownership). -/
structure Ownership where
  owner : String
  delegate : Option String
deriving DecidableEq

/-- Compression block of the getAsset response (rpcAsset.compression). -/
structure Compression where
  leaf_id : Nat
  data_hash : String
  creator_hash : String
deriving DecidableEq

/-- The getAsset response consumed by transferNFTInstruction. -/
structure RpcAsset where
  ownership : Ownership
  compression : Compression
deriving DecidableEq

/-- An account reference in the proof path (src/Api.ts lines 1002-1005):
pubkey plus isSigner/isWritable flags, both always false for proof nodes. -/
structure AccountMeta where
  pubkey : String
  isSigner : Bool
  isWritable : Bool
deriving DecidableEq

/-- The accounts and args handed to mpl-bubblegum createTransferInstruction
(src/Api.ts lines 1021-1043).  The fixed program ids (logWrapper,
compressionProgram) are omitted as constants of the external SDK. -/
structure TransferInstructionData where
  treeAuthority : String
  leafOwner : String
  leafDelegate : String
  newLeafOwner : String
  merkleTree : String
  proofPath : List AccountMeta
  root : List Nat
  dataHash : List Nat
  creatorHash : List Nat
  nonce : Nat
  index : Nat
deriving DecidableEq

/-- Errors thrown by transferNFTInstruction: "Proof is empty" (line 988),
"Failed to fetch merkle tree" (line 995), a rejected getAsset call, and a
bs58.decode failure while building the instruction args. -/
inductive TransferError where
  | proofEmpty
  | treeUnavailable
  | assetUnavailable
  | decodeError
deriving DecidableEq

/-- The value returned by transferNFTInstruction: an optional transfer
instruction together with the asset's current owner (src/Api.ts lines
1012 and 1045). -/
structure TransferResult where
  transferInstruction : Option TransferInstructionData
  owner : String
deriving DecidableEq

/-- The external state transferNFTInstruction reads for one asset:
the getAssetProof response, the merkle-tree account (reduced to the canopy
depth parsed from it; none = account missing), the getAsset response
(none = the RPC call rejected), the bs58 decoder (none = decode throws) and
the bubblegum authority PDA derivation. -/
structure ChainEnv where
  assetProof : Option AssetProof
  treeCanopyDepth : Option Nat
  rpcAsset : Option RpcAsset
  bs58decode : String → Option (List Nat)
  bubblegumAuthority : String → String

/-- Embedding of Api.transferNFTInstruction (src/Api.ts lines 980-1046).
The unused Keypair parameter of the source is dropped; newOwner is the
purchaser's base58 key.  Thrown errors become Except.error. -/
def transferNFTInstruction (env : ChainEnv) (newOwner : String) :
    Except TransferError TransferResult :=
  match env.assetProof with
  | none => .error .proofEmpty
  | some ap =>
    if ap.proof.length = 0 then .error .proofEmpty
    else
      match env.treeCanopyDepth with
      | none => .error .treeUnavailable
      | some canopyDepth =>
        let sliceIndex : Int := (ap.proof.length : Int) - (canopyDepth : Int)
        let proofPath : List AccountMeta :=
          jsSliceTo (ap.proof.map (fun node => ⟨node, false, false⟩)) sliceIndex
        match env.rpcAsset with
        | none => .error .assetUnavailable
        | some asset =>
          if asset.ownership.owner = newOwner then
            .ok { transferInstruction := none, owner := asset.ownership.owner }
          else
            let leafNonce := asset.compression.leaf_id
            let treeAuthority := env.bubblegumAuthority ap.tree_id
            let leafDelegate :=
              match asset.ownership.delegate with
              | some d => d
              | none => asset.ownership.owner
            match env.bs58decode ap.root,
                  env.bs58decode asset.compression.data_hash.trim,
                  env.bs58decode asset.compression.creator_hash.trim with
            | some root, some dataHash, some creatorHash =>
              .ok { transferInstruction := some {
                      treeAuthority := treeAuthority,
                      leafOwner := asset.ownership.owner,
                      leafDelegate := leafDelegate,
                      newLeafOwner := newOwner,
                      merkleTree := ap.tree_id,
                      proofPath := proofPath,
                      root := root,
                      dataHash := dataHash,
                      creatorHash := creatorHash,
                      nonce := leafNonce,
                      index := leafNonce },
                    owner := asset.ownership.owner }
            | _, _, _ => .error .decodeError

/-- One raw item of a getAssetsByOwner page, with the fields
getDigitalStandardItems reads (src/Api.ts lines 1086-1112): id, the burnt
flag, compression.compressed, and the content file uris. -/
structure RawItem where
  id : String
  burnt : Bool
  compressed : Bool
  files : List String
deriving DecidableEq

/-- The result object of one successful getAssetsByOwner page:
items plus the reported total and reported limit fields the loop reads
(src/Api.ts line 1091). -/
structure PageResult where
  items : List RawItem
  total : Nat
  limit : Nat
deriving DecidableEq

/-- One page response: an HTTP failure (response.ok false), an
indexer-reported error (rawData.error), or a result object. -/
inductive PageResponse where
  | httpError
  | rpcError
  | ok (r : PageResult)
deriving DecidableEq

/-- The items of a page that survive the two filters of
getDigitalStandardItems: not burnt, and compressed (src/Api.ts 1086-1088). -/
def pageKept (r : PageResult) : List RawItem :=
  (r.items.filter (fun i => !i.burnt)).filter (fun i => i.compressed)

/-- The paging loop of getDigitalStandardItems (src/Api.ts lines 1052-1096).
The source increments an integer page counter starting at 1 and issues one
request per page; here the environment is the sequence of responses those
requests would receive, so page n is the n-th list entry, and falling off
the end of the list stands for a request that fails (which, like an
HTTP or indexer error, ends the loop with what was accumulated). -/
def fetchPages : List PageResponse → List RawItem
  | [] => []
  | .httpError :: _ => []
  | .rpcError :: _ => []
  | .ok r :: rest =>
    if r.total < r.limit then pageKept r else pageKept r ++ fetchPages rest

/-- The normalized view of an owned compressed NFT returned by
getDigitalStandardItems (src/Api.ts lines 1101-1112). -/
structure CompressedNFT where
  assetId : String
  image : Option String
deriving DecidableEq

/-- The final mapping step of getDigitalStandardItems: keep the id and the
first content file uri if any (src/Api.ts lines 1101-1112). -/
def toCompressedNFT (c : RawItem) : CompressedNFT :=
  { assetId := c.id, image := c.files.head? }

/-- Embedding of Api.getDigitalStandardItems (src/Api.ts lines 1048-1113)
over the observed sequence of page responses. -/
def getDigitalStandardItems (pages : List PageResponse) : List CompressedNFT :=
  (fetchPages pages).map toCompressedNFT

/-- A wall_bricks row (schema in src/Database.ts): coordinates, the bound
asset id, the purchased flag and the optional image location. -/
structure WallBrick where
  x : Int
  y : Int
  assetId : String
  purchased : Bool
  imageLocation : Option String
deriving DecidableEq

/-- An edit_bricks row: submitting address and consumed transaction hash. -/
structure EditRecord where
  username : String
  transactionHash : String
deriving DecidableEq

/-- The persistent store as the handlers see it. -/
structure DbState where
  wallBricks : List WallBrick
  editBricks : List EditRecord
deriving DecidableEq

/-- A requested coordinate pair. -/
structure Coordinate where
  x : Int
  y : Int
deriving DecidableEq

/-- The rows returned by the shared SELECT ... WHERE (x, y) IN (...) query
of the handlers (src/Api.ts lines 167-180, 260-272, 359-371): every stored
brick whose coordinate pair occurs in the requested list. -/
def dbRows (st : DbState) (coords : List Coordinate) : List WallBrick :=
  st.wallBricks.filter (fun b => coords.any (fun c => c.x == b.x && c.y == b.y))

/-- One instruction of an assembled transaction. -/
inductive Instr where
  | computeUnitLimit (units : Nat)
  | computeUnitPrice (microLamports : Nat)
  | transferSOL (fromKey toKey : String) (lamports : Nat)
  | transferCompressedNFT (ti : TransferInstructionData)
deriving DecidableEq

/-- An assembled transaction: ordered instructions, fee payer, the recent
blockhash stamped on it, and the keys that have partially signed it. -/
structure SolTx where
  instructions : List Instr
  feePayer : String
  recentBlockhash : String
  signatures : List String
deriving DecidableEq

/-- The tip destination picked by jitoTipInstruction (src/Api.ts lines
967-978): pickRandomItem draws a uniformly random valid index, modelled by
an externally supplied index reduced mod the pool size. -/
def jitoTipAccount (tipIndex : Nat) : String :=
  JITO_TIP_ACCOUNTS.getD (tipIndex % JITO_TIP_ACCOUNTS.length) ""

/-- The network-dependent inputs of one purchase-batch request: the chain
state per asset id, the blockhash fetched once per request, and the random
tip index. -/
structure PurchaseNet where
  chain : String → ChainEnv
  blockhash : String
  tipIndex : Nat

/-- A hard error aborting a purchase batch: a resolver failure, or the
conflict branch of src/Api.ts lines 291-295. -/
inductive PurchaseAbort where
  | resolver (e : TransferError)
  | alreadyPurchasedByOther
deriving DecidableEq

/-- Embedding of the per-brick createTransaction closure of
purchaseBrickSquares (src/Api.ts lines 281-314).  Returns none for a brick
skipped because the purchaser already owns it, some tx for an assembled
partially-signed transaction, and an error for a thrown exception. -/
def createTransaction (net : PurchaseNet) (serviceKey user : String)
    (brick : WallBrick) : Except PurchaseAbort (Option SolTx) :=
  match transferNFTInstruction (net.chain brick.assetId) user with
  | .error e => .error (.resolver e)
  | .ok res =>
    match res.transferInstruction with
    | none =>
      if res.owner ≠ user then .error .alreadyPurchasedByOther
      else .ok none
    | some ti =>
      .ok (some {
        instructions := [
          Instr.computeUnitLimit 100000,
          Instr.computeUnitPrice 100000,
          Instr.transferSOL user FUNDS_DESTINATION PRICE_PER_BRICK,
          Instr.transferSOL serviceKey FUNDS_DESTINATION 1,
          Instr.transferCompressedNFT ti,
          Instr.transferSOL user (jitoTipAccount net.tipIndex) JITO_FEE],
        feePayer := user,
        recentBlockhash := net.blockhash,
        signatures := [serviceKey] })

/-- The chunked assembly loop of purchaseBrickSquares (src/Api.ts lines
316-331): bricks are processed in chunks of 100; a failure inside a chunk
makes the whole request answer with that error (transactions of earlier
chunks are discarded from the response); null results are filtered out.
Promise.all settles concurrently, so when several bricks of a chunk fail the
reported error is timing-dependent; this embedding deterministically reports
the first failing brick in list order. -/
def processChunks (f : WallBrick → Except PurchaseAbort (Option SolTx)) :
    List WallBrick → Except PurchaseAbort (List SolTx)
  | [] => .ok []
  | b :: bs =>
    match (b :: bs.take 99).mapM f with
    | .error e => .error e
    | .ok opts =>
      match processChunks f (bs.drop 99) with
      | .error e => .error e
      | .ok rest => .ok (opts.filterMap id ++ rest)
termination_by l => l.length
decreasing_by simp; omega

/-- The response of the purchase-batch endpoint. -/
inductive PurchaseResponse where
  | invalidAddress
  | bricksDontExist
  | assemblyError (e : PurchaseAbort)
  | ok (txs : List SolTx)
deriving DecidableEq

/-- Embedding of Api.purchaseBrickSquares (src/Api.ts lines 240-338).
validAddress models whether new PublicKey(solAddress) succeeds. -/
def purchaseBrickSquares (validAddress : String → Bool) (net : PurchaseNet)
    (serviceKey : String) (st : DbState) (coords : List Coordinate)
    (user : String) : PurchaseResponse :=
  if validAddress user = false then .invalidAddress
  else
    let rows := dbRows st coords
    if rows.length ≠ coords.length then .bricksDontExist
    else
      match processChunks (createTransaction net serviceKey user) rows with
      | .error e => .assemblyError e
      | .ok txs => .ok txs

/-- The network-dependent inputs of one edit-payment request
(purchaseBrickModify): the purchaser's owned assets as reported by the
indexer, the fetched blockhash and the random tip index. -/
structure EditNet where
  digitalItems : List CompressedNFT
  blockhash : String
  tipIndex : Nat

/-- The response of the edit-payment endpoint (purchaseBrickModify),
with the itemized offender lists of src/Api.ts lines 186-205. -/
inductive ModifyResponse where
  | invalidAddress
  | bricksDontExist
  | notOwned (bricks : List WallBrick)
  | noImage (bricks : List WallBrick)
  | missingAssets (assets : List String)
  | ok (txs : List SolTx)
deriving DecidableEq

/-- Embedding of Api.purchaseBrickModify (src/Api.ts lines 144-232).
The JS falsiness test !brick.image_location is modelled as
Option.isNone (a NULL image_location column). -/
def purchaseBrickModify (validAddress : String → Bool) (net : EditNet)
    (st : DbState) (coords : List Coordinate) (user : String) :
    ModifyResponse :=
  if validAddress user = false then .invalidAddress
  else
    let bricks := dbRows st coords
    if bricks.length ≠ coords.length then .bricksDontExist
    else
      let nonOwnedBricks := bricks.filter (fun b => !b.purchased)
      if nonOwnedBricks.length > 0 then .notOwned nonOwnedBricks
      else
        let bricksWithoutImage := bricks.filter (fun b => b.imageLocation.isNone)
        if bricksWithoutImage.length > 0 then .noImage bricksWithoutImage
        else
          let assetIds := bricks.map (fun b => b.assetId)
          let ownedAssetIds := net.digitalItems.map (fun i => i.assetId)
          let missingAssets := assetIds.filter (fun a => !ownedAssetIds.contains a)
          if missingAssets.length > 0 then .missingAssets missingAssets
          else
            let totalSolPayment := PRICE_PER_BRICK_EDIT * bricks.length
            .ok [{
              instructions := [
                Instr.computeUnitLimit 100000,
                Instr.computeUnitPrice 100000,
                Instr.transferSOL user FUNDS_DESTINATION totalSolPayment,
                Instr.transferSOL user (jitoTipAccount net.tipIndex) JITO_FEE],
              feePayer := user,
              recentBlockhash := net.blockhash,
              signatures := [] }]

/-- One instruction of a fetched finalized transaction, as seen after the
decompile/decodeTransfer steps of src/Api.ts lines 427-450: either a system
transfer with its parties and lamports, or anything else (non-system
programs, undecodable or non-transfer instructions, all skipped). -/
inductive ParsedInstr where
  | transfer (fromKey toKey : String) (lamports : Nat)
  | other
deriving DecidableEq

/-- A fetched finalized transaction reduced to what
modifyDefinedPurchasedBricks reads: its instructions and the first static
account key (the fee payer / first signer, src/Api.ts line 459). -/
structure FetchedTx where
  instructions : List ParsedInstr
  firstSigner : String
deriving DecidableEq

/-- One uploaded brick image of an edit request. -/
structure BrickImage where
  x : Int
  y : Int
  image : String
deriving DecidableEq

/-- The body of an edit-confirmation request (src/Api.ts line 341). -/
structure EditRequest where
  images : List BrickImage
  solAddress : String
  signature : String
deriving DecidableEq

/-- The environment of one edit-confirmation request: address parse
success, the indexer view of the user's assets, the transaction returned by
getTransaction after the bounded retries (none = still not found), and the
uuid-generated image path for each image index. -/
structure EditConfirmEnv where
  validAddress : String → Bool
  digitalItems : List CompressedNFT
  fetchedTx : Option FetchedTx
  newImagePath : Nat → String

/-- The response of the edit-confirmation endpoint. -/
inductive EditConfirmResponse where
  | invalidAddress
  | bricksDontExist
  | imageNotDefined (bricks : List WallBrick)
  | missingAssets (assets : List String)
  | txAlreadyUsed
  | txNotFound
  | incorrectPayment
  | notSignedByAddress
  | success
deriving DecidableEq

/-- Whether one parsed instruction passes the payment validation of
src/Api.ts lines 437-445: a system transfer to FUNDS_DESTINATION, from the
claimed user, of exactly the expected lamports. -/
def isMatchingTransfer (user : String) (total : Nat) : ParsedInstr → Bool
  | .transfer f t l => t == FUNDS_DESTINATION && f == user && l == total
  | .other => false

/-- Embedding of Api.modifyDefinedPurchasedBricks (src/Api.ts lines
340-502), returning the response together with the store state after the
request.  Image files written to disk are outside the store model; the
database effects are the image_location updates and the edit_bricks
insert. -/
def modifyDefinedPurchasedBricks (env : EditConfirmEnv) (st : DbState)
    (req : EditRequest) : EditConfirmResponse × DbState :=
  if env.validAddress req.solAddress = false then (.invalidAddress, st)
  else
    let bricks := dbRows st (req.images.map (fun i => ⟨i.x, i.y⟩))
    if bricks.length ≠ req.images.length then (.bricksDontExist, st)
    else
      let undefinedImageBricks := bricks.filter (fun b => b.imageLocation.isNone)
      if undefinedImageBricks.length > 0 then
        (.imageNotDefined undefinedImageBricks, st)
      else
        let assetIds := bricks.map (fun b => b.assetId)
        let ownedAssetIds := env.digitalItems.map (fun i => i.assetId)
        let missingAssets := assetIds.filter (fun a => !ownedAssetIds.contains a)
        if missingAssets.length > 0 then (.missingAssets missingAssets, st)
        else
          if st.editBricks.any (fun e => e.transactionHash == req.signature) then
            (.txAlreadyUsed, st)
          else
            match env.fetchedTx with
            | none => (.txNotFound, st)
            | some tx =>
              let totalSolPayment := PRICE_PER_BRICK_EDIT * req.images.length
              if !(tx.instructions.any (isMatchingTransfer req.solAddress totalSolPayment)) then
                (.incorrectPayment, st)
              else
                if tx.firstSigner ≠ req.solAddress then (.notSignedByAddress, st)
                else
                  let newWallBricks := st.wallBricks.map (fun b =>
                    match req.images.enum.find? (fun p => p.2.x == b.x && p.2.y == b.y) with
                    | some p => { b with imageLocation := some (env.newImagePath p.1) }
                    | none => b)
                  (.success,
                   { wallBricks := newWallBricks,
                     editBricks := st.editBricks ++ [⟨req.solAddress, req.signature⟩] })

/-- Embedding of one cycle of the Api.updatePurchasedbricks reconciliation
loop (src/Api.ts lines 1115-1150), given the freshly fetched assets of the
service wallet.  Returns the store after the cycle together with whether the
rendered-bricks cache was invalidated. -/
def reconcileCycle (currentAssets : List CompressedNFT) (st : DbState) :
    DbState × Bool :=
  let currentAssetIds := currentAssets.map (fun a => a.assetId)
  let bricks := st.wallBricks.filter (fun b => !b.purchased)
  let purchasedBricks := bricks.filter (fun b => !currentAssetIds.contains b.assetId)
  if purchasedBricks.length > 0 && currentAssets.length > 0 then
    let assetIdsToUpdate := purchasedBricks.map (fun b => b.assetId)
    ({ st with wallBricks := st.wallBricks.map (fun b =>
        if assetIdsToUpdate.contains b.assetId then { b with purchased := true }
        else b) },
     true)
  else (st, false)

/-- Errors thrown by verifySignature (src/Utils.ts lines 36-57): the
PublicKey constructor throws when the address does not parse (line 37), and
tweetnacl 1.0.3's sign.detached.verify throws "bad signature size" when the
signature is not 64 bytes long.  (Its bad-public-key-size throw is
unreachable here: address.toBytes() of a successfully parsed key is always
32 bytes.) -/
inductive VerifyError where
  | invalidPublicKey
  | badSignatureSize
deriving DecidableEq

/-- JavaScript String.prototype.split(" ") over the character list:
every single space character separates segments, adjacent or leading or
trailing spaces produce empty segments, and the empty string yields one
empty segment. -/
def splitCharsOnSpace : List Char → List (List Char)
  | [] => [[]]
  | c :: rest =>
    match splitCharsOnSpace rest with
    | [] => []
    | seg :: segs =>
      if c = ' ' then [] :: seg :: segs else (c :: seg) :: segs

/-- JavaScript strMessage.split(" ") as used by verifySignature
(src/Utils.ts line 48). -/
def jsSplitOnSpace (s : String) : List String :=
  (splitCharsOnSpace s.toList).map (fun cs => String.mk cs)

/-- Embedding of verifySignature (src/Utils.ts lines 36-57).  A public key
is identified with its canonical base58 text (base58 encoding is unique, so
toString of a successfully parsed address is that address); validPubKey
models whether new PublicKey(address) succeeds, and the curve arithmetic of
the tweetnacl detached verify - reached only once the signature has the
required 64 bytes - is the abstract parameter edVerify (message, signature,
public key).  Thrown errors become Except.error.  The source splits the
decoded message on single spaces and reads index 8, which is undefined
(hence not equal to the address) when fewer than nine pieces exist. -/
def verifySignature (validPubKey : String → Bool)
    (edVerify : String → List Nat → String → Bool)
    (address : String) (toSign : String) (signature : List Nat) :
    Except VerifyError Bool :=
  if validPubKey address = false then .error .invalidPublicKey
  else if signature.length ≠ 64 then .error .badSignatureSize
  else if !(edVerify toSign signature address) then .ok false
  else
    let pieces := jsSplitOnSpace toSign
    match pieces.get? 8 with
    | some solWallet => if solWallet ≠ address then .ok false else .ok true
    | none => .ok false

/-- The proof-path length of a resolved plan, when the resolution succeeded
and returned a transfer instruction. -/
def planProofLength : Except TransferError TransferResult → Option Nat
  | .ok r =>
    match r.transferInstruction with
    | some i => some i.proofPath.length
    | none => none
  | .error _ => none

/-- Concrete chain state for the C1 counterexample: a proof of length 2 on
a tree whose canopy depth is 3, asset owned by a third party. -/
def proofTrimCexEnv : ChainEnv :=
  { assetProof := some { proof := ["n1", "n2"], tree_id := "t", root := "r" },
    treeCanopyDepth := some 3,
    rpcAsset := some { ownership := { owner := "bob", delegate := none },
                       compression := { leaf_id := 5, data_hash := "dh", creator_hash := "ch" } },
    bs58decode := fun _ => some [0],
    bubblegumAuthority := fun t => "auth" ++ t }

/-- Concrete chain state for the C1 witness: a proof of length 2, canopy
depth 1. -/
def proofTrimWitnessEnv : ChainEnv :=
  { assetProof := some { proof := ["n1", "n2"], tree_id := "t", root := "r" },
    treeCanopyDepth := some 1,
    rpcAsset := some { ownership := { owner := "bob", delegate := none },
                       compression := { leaf_id := 5, data_hash := "dh", creator_hash := "ch" } },
    bs58decode := fun _ => some [0],
    bubblegumAuthority := fun t => "auth" ++ t }

/-- The instruction transferNFTInstruction builds from proofTrimWitnessEnv. -/
def proofTrimWitnessInstr : TransferInstructionData :=
  { treeAuthority := "autht",
    leafOwner := "bob",
    leafDelegate := "bob",
    newLeafOwner := "alice",
    merkleTree := "t",
    proofPath := [⟨"n1", false, false⟩],
    root := [0],
    dataHash := [0],
    creatorHash := [0],
    nonce := 5,
    index := 5 }

/-- Concrete chain state for the C3 counterexample: the asset is already
owned by the requested new owner, but the fetched proof is missing. -/
def idemCexEnv : ChainEnv :=
  { assetProof := none,
    treeCanopyDepth := some 0,
    rpcAsset := some { ownership := { owner := "alice", delegate := none },
                       compression := { leaf_id := 0, data_hash := "dh", creator_hash := "ch" } },
    bs58decode := fun _ => some [0],
    bubblegumAuthority := fun t => t }

/-- Concrete chain state for the C3 witness: non-empty proof, tree present,
asset already owned by the requested new owner. -/
def idemWitnessEnv : ChainEnv :=
  { assetProof := some { proof := ["n1"], tree_id := "t", root := "r" },
    treeCanopyDepth := some 0,
    rpcAsset := some { ownership := { owner := "alice", delegate := none },
                       compression := { leaf_id := 0, data_hash := "dh", creator_hash := "ch" } },
    bs58decode := fun _ => some [0],
    bubblegumAuthority := fun t => t }

/-- Chain state of the C2 counterexample: the brick's asset is live-owned
by "eve", a third party (neither the service identity "service" nor the
purchaser "alice"). -/
def thirdPartyCexChain : ChainEnv :=
  { assetProof := some { proof := ["n1", "n2"], tree_id := "tree1", root := "root1" },
    treeCanopyDepth := some 0,
    rpcAsset := some { ownership := { owner := "eve", delegate := none },
                       compression := { leaf_id := 7, data_hash := "dh", creator_hash := "ch" } },
    bs58decode := fun _ => some [1],
    bubblegumAuthority := fun t => "auth" ++ t }

/-- Network inputs of the C2 counterexample. -/
def thirdPartyCexNet : PurchaseNet :=
  { chain := fun _ => thirdPartyCexChain, blockhash := "bh", tipIndex := 0 }

/-- Store of the C2 counterexample: one brick bound to asset1. -/
def thirdPartyCexStore : DbState :=
  { wallBricks := [⟨0, 0, "asset1", false, none⟩], editBricks := [] }

/-- The transaction the purchase batch of the C2 counterexample returns for
the third-party-owned brick. -/
def thirdPartyCexTx : SolTx :=
  { instructions := [
      Instr.computeUnitLimit 100000,
      Instr.computeUnitPrice 100000,
      Instr.transferSOL "alice" FUNDS_DESTINATION PRICE_PER_BRICK,
      Instr.transferSOL "service" FUNDS_DESTINATION 1,
      Instr.transferCompressedNFT {
        treeAuthority := "authtree1",
        leafOwner := "eve",
        leafDelegate := "eve",
        newLeafOwner := "alice",
        merkleTree := "tree1",
        proofPath := [⟨"n1", false, false⟩, ⟨"n2", false, false⟩],
        root := [1],
        dataHash := [1],
        creatorHash := [1],
        nonce := 7,
        index := 7 },
      Instr.transferSOL "alice" (jitoTipAccount 0) JITO_FEE],
    feePayer := "alice",
    recentBlockhash := "bh",
    signatures := ["service"] }

/-- Chain state of the C2 witness for an asset already owned by the
purchaser "alice". -/
def selfOwnedChain : ChainEnv :=
  { assetProof := some { proof := ["n1"], tree_id := "t", root := "r" },
    treeCanopyDepth := some 0,
    rpcAsset := some { ownership := { owner := "alice", delegate := none },
                       compression := { leaf_id := 1, data_hash := "d", creator_hash := "c" } },
    bs58decode := fun _ => some [2],
    bubblegumAuthority := fun t => t }

/-- Chain state of the C2 witness for an asset still owned by the service. -/
def serviceOwnedChain : ChainEnv :=
  { assetProof := some { proof := ["n1"], tree_id := "t", root := "r" },
    treeCanopyDepth := some 0,
    rpcAsset := some { ownership := { owner := "service", delegate := none },
                       compression := { leaf_id := 1, data_hash := "d", creator_hash := "c" } },
    bs58decode := fun _ => some [2],
    bubblegumAuthority := fun t => t }

/-- Network inputs of the C2 witness: assetS is owned by the purchaser,
every other asset by the service. -/
def skipWitnessNet : PurchaseNet :=
  { chain := fun a => if a == "assetS" then selfOwnedChain else serviceOwnedChain,
    blockhash := "bh",
    tipIndex := 1 }

/-- Store of the C2 witness: two bricks. -/
def skipWitnessStore : DbState :=
  { wallBricks := [⟨0, 0, "assetS", false, none⟩, ⟨1, 0, "assetO", false, none⟩],
    editBricks := [] }

/-- Trivial chain state used where a purchase request never reaches the
chain (C8 witness). -/
def unusedChain : ChainEnv :=
  { assetProof := none,
    treeCanopyDepth := none,
    rpcAsset := none,
    bs58decode := fun _ => none,
    bubblegumAuthority := fun t => t }

/-- Network inputs of the C8 witness. -/
def mismatchWitnessNet : PurchaseNet :=
  { chain := fun _ => unusedChain, blockhash := "bh", tipIndex := 0 }

/-- Store of the C8 witness: the catalog has a brick at (0,0) but none at
(99,99). -/
def mismatchWitnessStore : DbState :=
  { wallBricks := [⟨0, 0, "assetA", false, none⟩], editBricks := [] }

/-- Pages of the C4 counterexample: page 1 reports total = limit = 500
(both below the requested 1000), page 2 is short. -/
def pagCexPages : List PageResponse :=
  [.ok { items := [⟨"a1", false, true, []⟩], total := 500, limit := 500 },
   .ok { items := [⟨"a2", false, true, []⟩], total := 0, limit := 1000 }]

/-- Full pages of the C4 witness. -/
def pagWitnessFront : List PageResult :=
  [{ items := [⟨"a1", false, true, ["u1"]⟩, ⟨"burned", true, true, []⟩,
      ⟨"plain", false, false, []⟩], total := 1000, limit := 1000 }]

/-- Final short page of the C4 witness. -/
def pagWitnessLast : PageResult :=
  { items := [⟨"a2", false, true, []⟩], total := 1, limit := 1000 }

/-- Environment of the C5 witness. -/
def replayEnv : EditConfirmEnv :=
  { validAddress := fun _ => true,
    digitalItems := [⟨"assetA", none⟩],
    fetchedTx := some { instructions := [.transfer "alice" FUNDS_DESTINATION PRICE_PER_BRICK_EDIT],
                        firstSigner := "alice" },
    newImagePath := fun n => "img" ++ toString n }

/-- Store of the C5 witness: "sig1" has already been consumed. -/
def replaySt : DbState :=
  { wallBricks := [⟨0, 0, "assetA", true, some "img0"⟩],
    editBricks := [⟨"alice", "sig1"⟩] }

/-- Request of the C5 witness: replays "sig1". -/
def replayReq : EditRequest :=
  { images := [⟨0, 0, "data"⟩], solAddress := "alice", signature := "sig1" }

/-- Store of the C6 witness: brick (0,0) is purchased with an image, brick
(1,0) is not purchased. -/
def editWitnessStore : DbState :=
  { wallBricks := [⟨0, 0, "assetA", true, some "imgA"⟩, ⟨1, 0, "assetB", false, none⟩],
    editBricks := [] }

/-- Network inputs of the C6 witness. -/
def editWitnessNet : EditNet :=
  { digitalItems := [⟨"assetA", none⟩, ⟨"assetB", none⟩],
    blockhash := "bh",
    tipIndex := 2 }

/-- Store of the C7 counterexample: a single unpurchased brick whose asset
is absent from an empty fetched set. -/
def reconcileCexSt : DbState :=
  { wallBricks := [⟨0, 0, "assetA", false, none⟩], editBricks := [] }

/-- Store of the C7 witness (the example of the specification): two
unpurchased bricks for assetA and assetB. -/
def reconcileExampleSt : DbState :=
  { wallBricks := [⟨0, 0, "assetA", false, none⟩, ⟨1, 0, "assetB", false, none⟩],
    editBricks := [] }

theorem jsSliceTo_sub_eq {α : Type} (l : List α) (d : Nat) :
    jsSliceTo l ((l.length : Int) - (d : Int)) =
      l.take (if d ≤ l.length then l.length - d else 2 * l.length - d) := by
  unfold jsSliceTo
  by_cases h : d ≤ l.length
  · rw [if_neg (by omega), if_pos h]
    congr 1
    omega
  · rw [if_pos (by omega), if_neg h]
    congr 1
    omega

/-- C1 (amended): when transferNFTInstruction returns a transfer
instruction, the instruction's proof path is the JavaScript slice
proof.slice(0, N - d) of the fetched proof: the first N - d nodes when the
canopy depth d is at most the proof length N, but the first 2N - d nodes
(clamped at 0) when d exceeds N, because the negative slice end counts back
from the end of the array.  In particular its length is N - d for d ≤ N and
2N - d (clamped at 0) for d > N, so it is 0 only when d = N or d ≥ 2N. -/
theorem proofTrim_proofPath (env : ChainEnv) (newOwner : String)
    (ap : AssetProof) (d : Nat) (instr : TransferInstructionData) (ownr : String)
    (h1 : env.assetProof = some ap)
    (h3 : env.treeCanopyDepth = some d)
    (hres : transferNFTInstruction env newOwner = .ok ⟨some instr, ownr⟩) :
    instr.proofPath =
      (ap.proof.map (fun node => (⟨node, false, false⟩ : AccountMeta))).take
        (if d ≤ ap.proof.length then ap.proof.length - d else 2 * ap.proof.length - d) ∧
    instr.proofPath.length =
      (if d ≤ ap.proof.length then ap.proof.length - d else 2 * ap.proof.length - d) := by
  have hslice := jsSliceTo_sub_eq
    (ap.proof.map (fun node => (⟨node, false, false⟩ : AccountMeta))) d
  rw [List.length_map] at hslice
  cases hasset : env.rpcAsset with
  | none =>
    exfalso
    simp only [transferNFTInstruction, h1, h3, hasset] at hres
    split at hres <;> simp at hres
  | some asset =>
    simp only [transferNFTInstruction, h1, h3, hasset] at hres
    split at hres
    · exact absurd hres (by simp)
    · split at hres
      · exact absurd hres (by simp)
      · split at hres
        · simp only [Except.ok.injEq, TransferResult.mk.injEq, Option.some.injEq] at hres
          obtain ⟨hinstr, -⟩ := hres
          subst hinstr
          refine ⟨hslice, ?_⟩
          rw [hslice, List.length_take, List.length_map]
          split <;> omega
        · exact absurd hres (by simp)

/-- C1 witness: on a concrete proof of length 2 with canopy depth 1 the
built instruction carries exactly the first 2 - 1 = 1 proof node. -/
theorem proofTrim_proofPath_witness :
    transferNFTInstruction proofTrimWitnessEnv "alice" =
      .ok ⟨some proofTrimWitnessInstr, "bob"⟩ ∧
    proofTrimWitnessInstr.proofPath =
      ((["n1", "n2"].map (fun node => (⟨node, false, false⟩ : AccountMeta))).take
        (if 1 ≤ 2 then 2 - 1 else 2 * 2 - 1)) := by
  refine ⟨by decide, ?_⟩
  have h := proofTrim_proofPath proofTrimWitnessEnv "alice"
    ⟨["n1", "n2"], "t", "r"⟩ 1 proofTrimWitnessInstr "bob" rfl rfl (by decide)
  exact h.1

/-- C1 counterexample: a fetched proof of length N = 2 on a tree of canopy
depth d = 3 (d ≥ N).  The claim requires a proof path of length 0, but the
built instruction carries 1 node, because JavaScript slice(0, -1) keeps the
first element. -/
theorem proofTrim_counterexample :
    planProofLength (transferNFTInstruction proofTrimCexEnv "alice") = some 1 ∧
    planProofLength (transferNFTInstruction proofTrimCexEnv "alice") ≠ some 0 := by
  decide

/-- C3 (amended): provided the fetched proof is present and non-empty, the
merkle-tree account is fetched, and the asset record is fetched, resolving
a transfer for an asset whose current owner already equals the requested
new owner returns the no-transfer-needed result (a null instruction with
that owner) and no error. -/
theorem resolve_noTransferNeeded (env : ChainEnv) (newOwner : String)
    (ap : AssetProof) (d : Nat) (asset : RpcAsset)
    (h1 : env.assetProof = some ap)
    (h2 : ap.proof ≠ [])
    (h3 : env.treeCanopyDepth = some d)
    (h4 : env.rpcAsset = some asset)
    (h5 : asset.ownership.owner = newOwner) :
    transferNFTInstruction env newOwner =
      .ok { transferInstruction := none, owner := asset.ownership.owner } := by
  simp only [transferNFTInstruction, h1, h3, h4]
  rw [if_neg (by simpa using h2), if_pos h5]

/-- C3 witness: a concrete asset already owned by the target address
resolves to the no-transfer-needed result. -/
theorem resolve_noTransferNeeded_witness :
    transferNFTInstruction idemWitnessEnv "alice" =
      .ok { transferInstruction := none, owner := "alice" } :=
  resolve_noTransferNeeded idemWitnessEnv "alice"
    ⟨["n1"], "t", "r"⟩ 0 ⟨⟨"alice", none⟩, ⟨0, "dh", "ch"⟩⟩
    rfl (by decide) rfl rfl rfl

/-- C3 counterexample: an asset already owned by the requested new owner
whose proof fetch comes back empty.  The claim requires the
no-transfer-needed result and no thrown error, but the code throws
"Proof is empty" before ever reading the ownership. -/
theorem idempotent_resolve_counterexample :
    (idemCexEnv.rpcAsset.map fun a => a.ownership.owner) = some "alice" ∧
    transferNFTInstruction idemCexEnv "alice" = .error .proofEmpty ∧
    transferNFTInstruction idemCexEnv "alice" ≠
      .ok { transferInstruction := none, owner := "alice" } := by
  decide

/-- C9: when the fetch of the service wallet's owned assets yields an empty
set, one reconciliation cycle performs no update at all: the store is
returned unchanged and the cache is not invalidated. -/
theorem reconcile_empty_fetch_noop (st : DbState) :
    reconcileCycle [] st = (st, false) := by
  simp [reconcileCycle]

/-- C10 counterexample: a valid address presented with a 1-byte signature.
The claim requires false to be returned in every case where its two
conditions do not hold, but tweetnacl's detached verify throws
"bad signature size" for any signature that is not 64 bytes - reachable
from the /image route, whose signedMessage body field is raw user input -
so verifySignature throws instead of returning false. -/
theorem verifySignature_counterexample :
    verifySignature (fun _ => true) (fun _ _ _ => false) "addr1" "msg" [0] =
      .error .badSignatureSize ∧
    verifySignature (fun _ => true) (fun _ _ _ => false) "addr1" "msg" [0] ≠
      .ok false := by
  decide

/-- C10 (amended): provided the address parses as a public key and the
signature is 64 bytes long (the inputs for which the source throws
nothing), verifySignature returns true exactly when the detached ed25519
check passes for the message, signature and address key and token index 8
of the space-split decoded message equals the address's canonical base58
text, and returns false rather than throwing in every other such case.
Outside those provisos the source throws (invalid public key, bad
signature size) instead of returning false. -/
theorem verifySignature_iff (validPubKey : String → Bool)
    (edVerify : String → List Nat → String → Bool)
    (address toSign : String) (signature : List Nat)
    (hva : validPubKey address = true)
    (hlen : signature.length = 64) :
    (verifySignature validPubKey edVerify address toSign signature = .ok true ↔
      (edVerify toSign signature address = true ∧
       (jsSplitOnSpace toSign).get? 8 = some address)) ∧
    (verifySignature validPubKey edVerify address toSign signature = .ok true ∨
     verifySignature validPubKey edVerify address toSign signature = .ok false) := by
  unfold verifySignature
  rw [hva]
  simp only [Bool.true_eq_false, if_false]
  rw [if_neg (by omega)]
  cases h : edVerify toSign signature address with
  | false => simp [h]
  | true =>
    simp only [h, Bool.not_true, Bool.false_eq_true, if_false, true_and]
    cases hp : (jsSplitOnSpace toSign).get? 8 with
    | none => simp
    | some w =>
      by_cases hw : w = address
      · subst hw; simp
      · simp [hw]

/-- C10 witness: a valid address, a 64-byte signature accepted by the
abstract curve check, and a message whose token index 8 is the address
verify to true. -/
theorem verifySignature_iff_witness :
    verifySignature (fun _ => true) (fun _ _ _ => true) "addr1"
      "a b c d e f g h addr1" (List.replicate 64 0) = .ok true := by
  have h := verifySignature_iff (fun _ => true) (fun _ _ _ => true) "addr1"
    "a b c d e f g h addr1" (List.replicate 64 0) rfl (by decide)
  exact h.1.mpr ⟨rfl, by decide⟩

theorem contains_iff_mem_str (l : List String) (s : String) :
    l.contains s = true ↔ s ∈ l := by
  simp

/-- C7 (amended): provided the freshly fetched asset set is non-empty, one
reconciliation cycle marks as purchased exactly the bricks stored as
unpurchased whose assetId is absent from that set, and leaves every other
brick (in particular every unpurchased brick whose assetId is present)
unchanged.  When the fetched set is empty the cycle changes nothing (the
guard of src/Api.ts line 1128), which is why non-emptiness is required. -/
theorem reconcile_marks_absent_unpurchased (currentAssets : List CompressedNFT)
    (st : DbState) (h : currentAssets ≠ []) :
    (reconcileCycle currentAssets st).1.wallBricks =
      st.wallBricks.map (fun b =>
        if !b.purchased && !((currentAssets.map (fun a => a.assetId)).contains b.assetId)
        then { b with purchased := true } else b) := by
  simp only [reconcileCycle]
  set ids := currentAssets.map (fun a => a.assetId) with hids
  set pb := (st.wallBricks.filter (fun b => !b.purchased)).filter
    (fun b => !ids.contains b.assetId) with hpbdef
  split
  case isTrue hcond =>
    dsimp only
    apply List.map_congr_left
    intro b hb
    by_cases hp : b.purchased = true
    · have h1 : (!b.purchased && !ids.contains b.assetId) = false := by
        rw [hp]; rfl
      rw [h1]
      by_cases hc : ((pb.map (fun b => b.assetId)).contains b.assetId) = true
      · rw [if_pos hc]
        have hbb : ({ b with purchased := true } : WallBrick) = b := by
          cases b; simp_all
        rw [hbb]
        simp
      · rw [if_neg hc]
        simp
    · have hp2 : b.purchased = false := by
        cases hv : b.purchased
        · rfl
        · exact absurd hv hp
      by_cases hm : (ids.contains b.assetId) = true
      · have h1 : (!b.purchased && !ids.contains b.assetId) = false := by
          rw [hm]; simp
        rw [h1]
        have hc : ¬(((pb.map (fun b => b.assetId)).contains b.assetId) = true) := by
          intro hc
          rw [contains_iff_mem_str] at hc
          obtain ⟨c, hcmem, hceq⟩ := List.mem_map.mp hc
          rw [hpbdef] at hcmem
          have h2 := (List.mem_filter.mp hcmem).2
          rw [hceq, hm] at h2
          simp at h2
        rw [if_neg hc]
        simp
      · have hm2 : (ids.contains b.assetId) = false := by
          cases hv : ids.contains b.assetId
          · rfl
          · exact absurd hv hm
        have h1 : (!b.purchased && !ids.contains b.assetId) = true := by
          rw [hp2, hm2]; rfl
        rw [h1]
        have hbp : b ∈ pb := by
          rw [hpbdef]
          refine List.mem_filter.mpr ⟨List.mem_filter.mpr ⟨hb, ?_⟩, ?_⟩
          · rw [hp2]; rfl
          · rw [hm2]; rfl
        have hc : ((pb.map (fun b => b.assetId)).contains b.assetId) = true := by
          rw [contains_iff_mem_str]
          exact List.mem_map_of_mem (fun b => b.assetId) hbp
        rw [if_pos hc]
        simp
  case isFalse hcond =>
    dsimp only
    have h2 : 0 < currentAssets.length := List.length_pos.mpr h
    have hpb : pb = [] := by
      by_contra hne
      exact hcond (by
        rw [decide_eq_true (List.length_pos.mpr hne), decide_eq_true h2]; rfl)
    rw [hpbdef] at hpb
    have hall := List.filter_eq_nil_iff.mp hpb
    have hid : ∀ b ∈ st.wallBricks,
        (if !b.purchased && !(ids.contains b.assetId)
         then { b with purchased := true } else b) = id b := by
      intro b hb
      by_cases hp : b.purchased = true
      · have h1 : (!b.purchased && !ids.contains b.assetId) = false := by
          rw [hp]; rfl
        rw [h1]
        simp
      · have hp2 : b.purchased = false := by
          cases hv : b.purchased
          · rfl
          · exact absurd hv hp
        have hbmem : b ∈ st.wallBricks.filter (fun b => !b.purchased) :=
          List.mem_filter.mpr ⟨hb, by rw [hp2]; rfl⟩
        have hm : ids.contains b.assetId = true := by
          cases hv : ids.contains b.assetId
          · exact absurd (by rw [hv]; rfl) (hall b hbmem)
          · rfl
        have h1 : (!b.purchased && !ids.contains b.assetId) = false := by
          rw [hm]; simp
        rw [h1]
        simp
    rw [List.map_congr_left hid, List.map_id]

/-- C7 witness, on the specification's own example: with unpurchased bricks
for assetA and assetB and the service wallet now owning only assetB, one
cycle marks the assetA brick purchased and leaves the assetB brick
unpurchased. -/
theorem reconcile_marks_absent_unpurchased_witness :
    (reconcileCycle [⟨"assetB", none⟩] reconcileExampleSt).1.wallBricks =
      [⟨0, 0, "assetA", true, none⟩, ⟨1, 0, "assetB", false, none⟩] := by
  rw [reconcile_marks_absent_unpurchased [⟨"assetB", none⟩] reconcileExampleSt
    (by decide)]
  decide

/-- C7 counterexample: with an empty fetched asset set and one unpurchased
brick, the brick's assetId is absent from the set, so the claim requires it
to be marked purchased; the code's guard (currentAssets.length > 0) leaves
the store untouched instead. -/
theorem reconcile_counterexample :
    reconcileCycle [] reconcileCexSt = (reconcileCexSt, false) ∧
    (reconcileCycle [] reconcileCexSt).1.wallBricks.map (fun b => b.purchased) =
      [false] ∧
    (reconcileCycle [] reconcileCexSt).1.wallBricks.map (fun b => b.purchased) ≠
      [true] := by
  decide

/-- C4 (amended): the oracle walks pages in order starting at page 1;
after each successfully decoded page it keeps the page's non-burnt
compressed items, stops if the page's reported total is below the page's
own reported limit field (and on any transport or indexer error), and
otherwise continues with the next page.  Hence for responses consisting of
pages whose reported total reaches their reported limit followed by one
short page, it returns the concatenation, in page order, of the filtered
items of those pages, ignoring everything after the short page.  (The
comparison is against the reported limit echoed in each response, not
against the requested constant 1000.) -/
theorem pagination_concat (front : List PageResult) (lastPage : PageResult)
    (rest : List PageResponse)
    (hfront : ∀ r ∈ front, r.limit ≤ r.total)
    (hlast : lastPage.total < lastPage.limit) :
    getDigitalStandardItems (front.map .ok ++ .ok lastPage :: rest) =
      (((front ++ [lastPage]).map pageKept).flatten).map toCompressedNFT := by
  unfold getDigitalStandardItems
  congr 1
  induction front with
  | nil =>
    simp only [List.map_nil, List.nil_append, fetchPages, List.map_cons,
      List.flatten_cons, List.flatten_nil, List.append_nil]
    rw [if_pos hlast]
  | cons r rs ih =>
    have hr : r.limit ≤ r.total := hfront r (by simp)
    simp only [List.map_cons, List.cons_append, fetchPages]
    rw [if_neg (by omega)]
    simp only [List.append_eq]
    rw [ih (fun x hx => hfront x (by simp [hx]))]
    simp

/-- C4 witness: one full page (reported total = reported limit = 1000,
with a burnt item and a non-compressed item filtered out) followed by a
short page yields the filtered items of both pages in order. -/
theorem pagination_concat_witness :
    getDigitalStandardItems (pagWitnessFront.map .ok ++ .ok pagWitnessLast :: []) =
      [⟨"a1", some "u1"⟩, ⟨"a2", none⟩] := by
  rw [pagination_concat pagWitnessFront pagWitnessLast [] (by decide) (by decide)]
  decide

/-- C4 counterexample: page 1 reports total 500 and limit 500.  Its total
is below the fixed request limit 1000, so the claim requires the oracle to
stop after page 1 and return only its items; the code compares the
reported total against the reported limit (500 < 500 is false), fetches
page 2 as well, and returns the items of both pages. -/
theorem pagination_counterexample :
    getDigitalStandardItems pagCexPages =
      [⟨"a1", none⟩, ⟨"a2", none⟩] ∧
    getDigitalStandardItems pagCexPages ≠ [⟨"a1", none⟩] := by
  decide

/-- C8: when the store rows found for the requested coordinate list do not
number exactly the requested coordinates, the whole purchase batch fails
with the unknown-brick validation error.  The network inputs (chain state,
blockhash, tip choice) are universally quantified and unused, so no
transaction is constructed for any brick of the batch and nothing network
dependent is consulted. -/
theorem batch_mismatch_fails (validAddress : String → Bool) (net : PurchaseNet)
    (serviceKey : String) (st : DbState) (coords : List Coordinate)
    (user : String)
    (hva : validAddress user = true)
    (hm : (dbRows st coords).length ≠ coords.length) :
    purchaseBrickSquares validAddress net serviceKey st coords user =
      .bricksDontExist := by
  unfold purchaseBrickSquares
  rw [hva]
  simp [hm]

/-- C8 witness, on the specification's example: requesting bricks (0,0)
and (99,99) where only (0,0) exists in the catalog fails the entire batch
with the validation error. -/
theorem batch_mismatch_fails_witness :
    purchaseBrickSquares (fun _ => true) mismatchWitnessNet "service"
      mismatchWitnessStore [⟨0, 0⟩, ⟨99, 99⟩] "alice" = .bricksDontExist :=
  batch_mismatch_fails (fun _ => true) mismatchWitnessNet "service"
    mismatchWitnessStore [⟨0, 0⟩, ⟨99, 99⟩] "alice" rfl (by decide)

/-- C6: an edit-payment request over target bricks whose store rows all
exist produces, when it succeeds, exactly one transaction whose user
payment instruction transfers PRICE_PER_BRICK_EDIT times the brick count
to FUNDS_DESTINATION; and when some target brick is not purchased, or some
target brick has no image content, the whole request fails with the
itemized offender list, with the result independent of every network input
(owned-assets fetch, blockhash, tip), i.e. decided before any network
fetch. -/
theorem edit_payment_single_tx (validAddress : String → Bool) (net : EditNet)
    (st : DbState) (coords : List Coordinate) (user : String)
    (hva : validAddress user = true)
    (hlen : (dbRows st coords).length = coords.length) :
    (((dbRows st coords).filter (fun b => !b.purchased)) ≠ [] →
      ∀ net2 : EditNet,
        purchaseBrickModify validAddress net2 st coords user =
          .notOwned ((dbRows st coords).filter (fun b => !b.purchased))) ∧
    (((dbRows st coords).filter (fun b => !b.purchased)) = [] →
      ((dbRows st coords).filter (fun b => b.imageLocation.isNone)) ≠ [] →
      ∀ net2 : EditNet,
        purchaseBrickModify validAddress net2 st coords user =
          .noImage ((dbRows st coords).filter (fun b => b.imageLocation.isNone))) ∧
    (((dbRows st coords).filter (fun b => !b.purchased)) = [] →
      ((dbRows st coords).filter (fun b => b.imageLocation.isNone)) = [] →
      (((dbRows st coords).map (fun b => b.assetId)).filter
        (fun a => !((net.digitalItems.map (fun i => i.assetId)).contains a))) = [] →
      purchaseBrickModify validAddress net st coords user =
        .ok [{
          instructions := [
            Instr.computeUnitLimit 100000,
            Instr.computeUnitPrice 100000,
            Instr.transferSOL user FUNDS_DESTINATION
              (PRICE_PER_BRICK_EDIT * coords.length),
            Instr.transferSOL user (jitoTipAccount net.tipIndex) JITO_FEE],
          feePayer := user,
          recentBlockhash := net.blockhash,
          signatures := [] }]) := by
  refine ⟨?_, ?_, ?_⟩
  · intro hnon net2
    unfold purchaseBrickModify
    rw [hva]
    simp only [Bool.true_eq_false, if_false, hlen]
    rw [if_neg (by omega)]
    rw [if_pos (by simpa [List.length_pos] using hnon)]
  · intro hnon himg net2
    unfold purchaseBrickModify
    rw [hva]
    simp only [Bool.true_eq_false, if_false, hlen]
    rw [if_neg (by omega)]
    rw [if_neg (by simp [hnon])]
    rw [if_pos (by simpa [List.length_pos] using himg)]
  · intro hnon himg hmiss
    unfold purchaseBrickModify
    rw [hva]
    simp only [Bool.true_eq_false, if_false, hlen]
    rw [if_neg (by omega)]
    rw [if_neg (by simp [hnon])]
    rw [if_neg (by simp [himg])]
    rw [if_neg (by rw [hmiss]; simp)]

/-- C6 witness: a request targeting the single purchased brick (0,0) with
an image yields exactly one transaction paying PRICE_PER_BRICK_EDIT * 1 to
FUNDS_DESTINATION. -/
theorem edit_payment_single_tx_witness :
    purchaseBrickModify (fun _ => true) editWitnessNet editWitnessStore
      [⟨0, 0⟩] "alice" =
      .ok [{
        instructions := [
          Instr.computeUnitLimit 100000,
          Instr.computeUnitPrice 100000,
          Instr.transferSOL "alice" FUNDS_DESTINATION (PRICE_PER_BRICK_EDIT * 1),
          Instr.transferSOL "alice" (jitoTipAccount 2) JITO_FEE],
        feePayer := "alice",
        recentBlockhash := "bh",
        signatures := [] }] := by
  have h := edit_payment_single_tx (fun _ => true) editWitnessNet editWitnessStore
    [⟨0, 0⟩] "alice" rfl (by decide)
  exact h.2.2 (by decide) (by decide) (by decide)

/-- C5: the edit-confirmation path consumes a transaction hash at most
once.  A successful request records the hash in edit_bricks; and whenever
the hash is already recorded, the request cannot succeed and leaves the
store (every brick and every edit record) unchanged, answering with the
conflict error (transaction already used) whenever it passes the checks
that precede the replay check. -/
theorem edit_replay_prevention (env : EditConfirmEnv) (st : DbState)
    (req : EditRequest) :
    ((modifyDefinedPurchasedBricks env st req).1 = .success →
      ((modifyDefinedPurchasedBricks env st req).2.editBricks.any
        (fun e => e.transactionHash == req.signature)) = true) ∧
    (st.editBricks.any (fun e => e.transactionHash == req.signature) = true →
      (modifyDefinedPurchasedBricks env st req).2 = st ∧
      (modifyDefinedPurchasedBricks env st req).1 ≠ .success) ∧
    (st.editBricks.any (fun e => e.transactionHash == req.signature) = true →
      env.validAddress req.solAddress = true →
      (dbRows st (req.images.map (fun i => ⟨i.x, i.y⟩))).length =
        req.images.length →
      ((dbRows st (req.images.map (fun i => ⟨i.x, i.y⟩))).filter
        (fun b => b.imageLocation.isNone)) = [] →
      (((dbRows st (req.images.map (fun i => ⟨i.x, i.y⟩))).map
          (fun b => b.assetId)).filter
        (fun a => !((env.digitalItems.map (fun i => i.assetId)).contains a))) = [] →
      (modifyDefinedPurchasedBricks env st req).1 = .txAlreadyUsed) := by
  refine ⟨?_, ?_, ?_⟩
  · unfold modifyDefinedPurchasedBricks
    dsimp only
    repeat' split
    all_goals intro hsucc
    all_goals first
      | (exfalso; simp at hsucc; done)
      | simp
  · intro hused
    unfold modifyDefinedPurchasedBricks
    dsimp only
    repeat' split
    all_goals exact ⟨rfl, by simp⟩
  · intro hused hva hlen himg hmiss
    unfold modifyDefinedPurchasedBricks
    rw [hva]
    simp only [Bool.true_eq_false, if_false, hlen]
    rw [if_neg (by omega)]
    rw [if_neg (by simp [himg])]
    rw [if_neg (by rw [hmiss]; simp)]
    rw [if_pos hused]

/-- C5 witness: replaying the already-consumed hash "sig1" answers with
the conflict error and leaves the store unchanged. -/
theorem edit_replay_prevention_witness :
    (modifyDefinedPurchasedBricks replayEnv replaySt replayReq).1 =
      .txAlreadyUsed ∧
    (modifyDefinedPurchasedBricks replayEnv replaySt replayReq).2 = replaySt := by
  have h := edit_replay_prevention replayEnv replaySt replayReq
  exact ⟨h.2.2 (by decide) (by decide) (by decide) (by decide) (by decide),
         (h.2.1 (by decide)).1⟩

theorem exceptMapM_ok {ε α β : Type} (f : β → Except ε α) (d : α) :
    ∀ (l : List β), (∀ b ∈ l, (f b).isOk = true) →
      l.mapM f = .ok (l.map (fun b => ((f b).toOption).getD d)) := by
  intro l h
  induction l with
  | nil => rw [List.mapM_nil]; rfl
  | cons b bs ih =>
    have hb := h b (by simp)
    obtain ⟨v, hv⟩ : ∃ v, f b = .ok v := by
      cases hfb : f b with
      | error e => rw [hfb] at hb; simp [Except.isOk, Except.toBool] at hb
      | ok v => exact ⟨v, rfl⟩
    rw [List.mapM_cons, hv, ih (fun x hx => h x (by simp [hx]))]
    simp [hv, Except.toOption]
    rfl

theorem processChunks_ok_aux (f : WallBrick → Except PurchaseAbort (Option SolTx)) :
    ∀ (n : Nat) (l : List WallBrick), l.length ≤ n →
      (∀ b ∈ l, (f b).isOk = true) →
      processChunks f l =
        .ok (l.filterMap (fun b => ((f b).toOption).getD none)) := by
  intro n
  induction n with
  | zero =>
    intro l hl _
    have hnil : l = [] := List.eq_nil_of_length_eq_zero (Nat.le_zero.mp hl)
    subst hnil
    simp [processChunks]
  | succ n ih =>
    intro l hl h
    match l with
    | [] => simp [processChunks]
    | b :: bs =>
      have hchunk : ∀ x ∈ b :: bs.take 99, (f x).isOk = true := by
        intro x hx
        rcases List.mem_cons.mp hx with h1 | h2
        · subst h1; exact h x (by simp)
        · exact h x (List.mem_cons_of_mem _ (List.take_subset _ _ h2))
      have hrest : ∀ x ∈ bs.drop 99, (f x).isOk = true := by
        intro x hx
        exact h x (List.mem_cons_of_mem _ (List.drop_subset _ _ hx))
      have hlen : (bs.drop 99).length ≤ n := by
        simp only [List.length_drop]
        simp only [List.length_cons] at hl
        omega
      rw [processChunks]
      rw [exceptMapM_ok f none (b :: bs.take 99) hchunk]
      rw [ih (bs.drop 99) hlen hrest]
      have hsplit : b :: bs = (b :: bs.take 99) ++ bs.drop 99 := by
        simp [List.take_append_drop]
      conv_rhs => rw [hsplit]
      dsimp only
      rw [List.filterMap_append, List.filterMap_map]
      rfl

theorem processChunks_ok (f : WallBrick → Except PurchaseAbort (Option SolTx))
    (l : List WallBrick) (h : ∀ b ∈ l, (f b).isOk = true) :
    processChunks f l =
      .ok (l.filterMap (fun b => ((f b).toOption).getD none)) :=
  processChunks_ok_aux f l.length l le_rfl h

theorem transferNFT_ok_none_inv (env : ChainEnv) (newOwner r : String)
    (h : transferNFTInstruction env newOwner = .ok ⟨none, r⟩) :
    (env.rpcAsset.map fun a => a.ownership.owner) = some newOwner ∧
    r = newOwner := by
  cases hap : env.assetProof with
  | none => simp [transferNFTInstruction, hap] at h
  | some ap =>
    cases hasset : env.rpcAsset with
    | none =>
      simp only [transferNFTInstruction, hap, hasset] at h
      split at h
      · simp at h
      · split at h <;> simp at h
    | some asset =>
      simp only [transferNFTInstruction, hap, hasset] at h
      split at h
      · simp at h
      · split at h
        · simp at h
        · split at h
          · have howner : asset.ownership.owner = newOwner := by assumption
            simp only [Except.ok.injEq, TransferResult.mk.injEq, true_and] at h
            refine ⟨by simp [howner], ?_⟩
            rw [← h, howner]
          · split at h <;> simp at h
theorem transferNFT_of_owner_eq (env : ChainEnv) (newOwner : String)
    (hok : (transferNFTInstruction env newOwner).isOk = true)
    (hw : (env.rpcAsset.map fun a => a.ownership.owner) = some newOwner) :
    transferNFTInstruction env newOwner = .ok ⟨none, newOwner⟩ := by
  cases hasset : env.rpcAsset with
  | none => simp [hasset] at hw
  | some asset =>
    rw [hasset] at hw
    simp only [Option.map_some', Option.some.injEq] at hw
    cases hap : env.assetProof with
    | none => simp [transferNFTInstruction, hap, Except.isOk, Except.toBool] at hok
    | some ap =>
      simp only [transferNFTInstruction, hap, hasset]
      by_cases hlen : ap.proof.length = 0
      · simp [transferNFTInstruction, hap, hlen, Except.isOk, Except.toBool] at hok
      · rw [if_neg hlen]
        cases hd : env.treeCanopyDepth with
        | none =>
          simp [transferNFTInstruction, hap, hlen, hd, Except.isOk,
            Except.toBool] at hok
        | some d =>
          dsimp only
          rw [if_pos hw]
          rw [hw]

/-- C2 (amended): in a purchase batch whose rows match the request and
whose per-brick assembly throws no error, the returned list consists, in
order, of the assembled transactions of exactly those bricks the resolver
did not skip; and a brick is skipped (absent from the output, with the
batch still assembled) precisely when its live on-chain owner is already
the purchaser.  A brick whose live owner is a third party (neither the
service identity nor the purchaser) is not excluded: its resolved transfer
instruction is non-null, so a transaction for it is included in the output.
The source's conflict branch (src/Api.ts lines 292-294), which would fail
the whole batch, is unreachable, because the resolver returns a null
instruction only when the owner equals the purchaser. -/
theorem purchase_skip_iff_self_owned (validAddress : String → Bool)
    (net : PurchaseNet) (serviceKey : String) (st : DbState)
    (coords : List Coordinate) (user : String)
    (hva : validAddress user = true)
    (hlen : (dbRows st coords).length = coords.length)
    (hres : ∀ b ∈ dbRows st coords,
      (createTransaction net serviceKey user b).isOk = true) :
    purchaseBrickSquares validAddress net serviceKey st coords user =
      .ok ((dbRows st coords).filterMap
        (fun b => ((createTransaction net serviceKey user b).toOption).getD none)) ∧
    ∀ b ∈ dbRows st coords,
      (createTransaction net serviceKey user b = .ok none ↔
        ((net.chain b.assetId).rpcAsset.map fun a => a.ownership.owner) =
          some user) := by
  constructor
  · unfold purchaseBrickSquares
    rw [hva]
    simp only [Bool.true_eq_false, if_false]
    rw [if_neg (by omega)]
    rw [processChunks_ok _ _ hres]
  · intro b hb
    constructor
    · intro hcr
      simp only [createTransaction] at hcr
      cases hr : transferNFTInstruction (net.chain b.assetId) user with
      | error e => rw [hr] at hcr; simp at hcr
      | ok res =>
        rw [hr] at hcr
        dsimp only at hcr
        cases res with
        | mk ti ownr =>
          cases ti with
          | some t => simp at hcr
          | none =>
            dsimp only at hcr
            by_cases ho : ownr = user
            · have hres2 : transferNFTInstruction (net.chain b.assetId) user =
                  .ok ⟨none, user⟩ := by
                rw [hr, ho]
              exact (transferNFT_ok_none_inv _ _ _ hres2).1
            · rw [if_pos ho] at hcr
              simp at hcr
    · intro hw
      have hok : (createTransaction net serviceKey user b).isOk = true :=
        hres b hb
      have hok2 : (transferNFTInstruction (net.chain b.assetId) user).isOk = true := by
        cases hr : transferNFTInstruction (net.chain b.assetId) user with
        | error e =>
          exfalso
          simp only [createTransaction, hr] at hok
          simp [Except.isOk, Except.toBool] at hok
        | ok res => simp [Except.isOk, Except.toBool]
      have h3 := transferNFT_of_owner_eq (net.chain b.assetId) user hok2 hw
      simp only [createTransaction, h3]
      simp

/-- C2 witness: a two-brick batch where the purchaser already owns assetS
and the service still owns assetO returns the filtered assembly, and that
assembly contains exactly one transaction (the self-owned brick is the one
excluded). -/
theorem purchase_skip_iff_self_owned_witness :
    purchaseBrickSquares (fun _ => true) skipWitnessNet "service"
      skipWitnessStore [⟨0, 0⟩, ⟨1, 0⟩] "alice" =
      .ok ((dbRows skipWitnessStore [⟨0, 0⟩, ⟨1, 0⟩]).filterMap
        (fun b => ((createTransaction skipWitnessNet "service" "alice" b).toOption).getD none)) ∧
    ((dbRows skipWitnessStore [⟨0, 0⟩, ⟨1, 0⟩]).filterMap
        (fun b => ((createTransaction skipWitnessNet "service" "alice" b).toOption).getD none)).length = 1 ∧
    createTransaction skipWitnessNet "service" "alice"
      ⟨0, 0, "assetS", false, none⟩ = .ok none := by
  have h := purchase_skip_iff_self_owned (fun _ => true) skipWitnessNet "service"
    skipWitnessStore [⟨0, 0⟩, ⟨1, 0⟩] "alice" rfl (by decide) (by decide)
  refine ⟨h.1, by decide, ?_⟩
  exact (h.2 ⟨0, 0, "assetS", false, none⟩ (by decide)).mpr (by decide)

/-- C2 counterexample: a one-brick batch whose asset is live-owned by
"eve", a third party (neither the service identity "service" nor the
purchaser "alice").  The claim requires the brick to be excluded from the
returned transaction list (an empty output here); the code instead builds
and returns a transaction for it, carrying a transfer instruction whose
leafOwner is "eve". -/
theorem thirdParty_included_counterexample :
    ((thirdPartyCexNet.chain "asset1").rpcAsset.map fun a => a.ownership.owner) =
      some "eve" ∧
    purchaseBrickSquares (fun _ => true) thirdPartyCexNet "service"
      thirdPartyCexStore [⟨0, 0⟩] "alice" = .ok [thirdPartyCexTx] ∧
    purchaseBrickSquares (fun _ => true) thirdPartyCexNet "service"
      thirdPartyCexStore [⟨0, 0⟩] "alice" ≠ .ok [] := by
  have hrows : dbRows thirdPartyCexStore [⟨0, 0⟩] =
      [⟨0, 0, "asset1", false, none⟩] := by decide
  have hp : purchaseBrickSquares (fun _ => true) thirdPartyCexNet "service"
      thirdPartyCexStore [⟨0, 0⟩] "alice" =
      .ok ((dbRows thirdPartyCexStore [⟨0, 0⟩]).filterMap
        (fun b => ((createTransaction thirdPartyCexNet "service" "alice" b).toOption).getD none)) := by
    unfold purchaseBrickSquares
    simp only [Bool.true_eq_false, if_false]
    rw [if_neg (by rw [hrows]; decide)]
    rw [processChunks_ok _ _ (by rw [hrows]; decide)]
  rw [hp, hrows]
  refine ⟨by decide, by decide, by decide⟩
